import Mathlib

/-!
Verification of the ESB transport protocol engine
(zmk-feature-esb_transport): a shallow embedding of the connection
state machine, the UART control-line parser, the report senders (the
current variant in src/src/esb_hid.c and the earlier variant in
src/unnamed/part_001), the packet codec, and the transport arbitration
logic from src/README.md, together with theorems settling the spec
claims.

Modelling conventions: C byte values are Nat (stores through a uint8_t
take the value modulo 256); error returns are the Int error codes the C
functions return; side effects (bytes written to the UART, connection
events raised, sleeps, the reboot call, and line-buffer stores) are
collected in an explicit trace.
-/

set_option autoImplicit false

namespace EsbTransport

/-- Zephyr (minimal libc) errno value for EINVAL. -/
def EINVAL : Int := 22

/-- Zephyr (minimal libc) errno value for ENODEV. -/
def ENODEV : Int := 19

/-- Zephyr (minimal libc) errno value for ENOTCONN. -/
def ENOTCONN : Int := 128

/-- Connection-state update, from src/src/esb.c (update_esb_connection_state,
lines 18-29); src/unnamed/part_001 lines 43-53 defines the identical logic.
Input: current value of the esb_connected flag and the requested value.
Output: the new flag value and the list of zmk_esb_conn_state_changed events
raised by the call (each event carries the new boolean). -/
def update_esb_connection_state (esb_connected connected : Bool) : Bool × List Bool :=
  if esb_connected != connected then (connected, [connected])
  else (esb_connected, [])

/-- Folds a sequence of connection-state updates, accumulating the raised
events in order. -/
def run_updates (s : Bool) (us : List Bool) : Bool × List Bool :=
  match us with
  | [] => (s, [])
  | c :: rest =>
    let r := update_esb_connection_state s c
    let r2 := run_updates r.1 rest
    (r2.1, r.2 ++ r2.2)

/-- Specification-side characterisation: the subsequence of updates that
actually change the running value (one entry per distinct transition). -/
def distinctTransitions (s : Bool) : List Bool → List Bool
  | [] => []
  | c :: rest => if c = s then distinctTransitions s rest
                 else c :: distinctTransitions c rest

/-- Report sender of the current variant, src/src/esb_hid.c
(zmk_esb_hid_send_report, lines 27-60). Checks the connection flag, then
device readiness, then validates total_len (= len + 2) against
sizeof(packet) = 64, then emits the single pre-assembled buffer
[type][length][payload]. Returns the C return code and the bytes written
to the UART by the call. -/
def zmk_esb_hid_send_report (esb_connected dev_ready : Bool) (ty : Nat)
    (report : List Nat) : Int × List Nat :=
  if !esb_connected then (-ENOTCONN, [])
  else if !dev_ready then (-ENODEV, [])
  else if report.length + 2 > 64 then (-EINVAL, [])
  else (0, (ty % 256) :: (report.length % 256) :: report)

namespace Part001

/-- Globals of the earlier variant src/unnamed/part_001:
esb_transport_ready (set at init) and esb_connection_active (the
connection state). -/
structure Esb001State where
  esb_transport_ready : Bool
  esb_connection_active : Bool
deriving DecidableEq, Repr

/-- From src/unnamed/part_001 lines 59-63: returns IS_ENABLED(CONFIG_ZMK_ESB),
which is 1 inside the guarded compilation unit. -/
def is_blesb_connected : Bool := true

/-- From src/unnamed/part_001 lines 65-71: returns IS_ENABLED(CONFIG_ZMK_ESB),
which is 1 inside the guarded compilation unit. -/
def is_blesb_in_esb_mode : Bool := true

/-- From src/unnamed/part_001 lines 195-199. -/
def zmk_esb_hid_is_ready (s : Esb001State) : Bool :=
  s.esb_transport_ready && is_blesb_connected && is_blesb_in_esb_mode

/-- ESB link MTU, src/unnamed/part_001 line 26. -/
def ESB_MAX_PAYLOAD_SIZE : Nat := 32

/-- Maximum HID payload: MTU minus the 2-byte header, src/unnamed/part_001
line 27. -/
def MAX_HID_REPORT_SIZE : Nat := ESB_MAX_PAYLOAD_SIZE - 2

/-- From src/unnamed/part_001 lines 206-208. -/
def zmk_esb_active_profile_is_connected (s : Esb001State) : Bool :=
  s.esb_connection_active && zmk_esb_hid_is_ready s

/-- Result of a part_001 send: C return code, bytes written to the UART,
the updated globals, and the connection events raised. -/
structure SendResult where
  ret : Int
  out : List Nat
  state : Esb001State
  events : List Bool
deriving DecidableEq, Repr

/-- Report sender of the earlier variant, src/unnamed/part_001
(zmk_esb_hid_send_packet, lines 77-123). Checks transport readiness (not
the connection state), validates hid_len against MAX_HID_REPORT_SIZE = 30,
writes [type][length][payload], then — optimistic liveness — marks the
connection active if it was not. -/
def zmk_esb_hid_send_packet (s : Esb001State) (packet_type : Nat)
    (hid_data : List Nat) : SendResult :=
  if !(zmk_esb_hid_is_ready s) then ⟨-ENODEV, [], s, []⟩
  else if hid_data.length > MAX_HID_REPORT_SIZE then ⟨-EINVAL, [], s, []⟩
  else
    let out := (packet_type % 256) :: (hid_data.length % 256) :: hid_data
    if !s.esb_connection_active then
      let u := update_esb_connection_state s.esb_connection_active true
      ⟨0, out, ⟨s.esb_transport_ready, u.1⟩, u.2⟩
    else ⟨0, out, s, []⟩

end Part001

/-- Packet Codec encode, as realised by the framing the senders perform:
size check length + 2 > 32 (the MTU check of src/unnamed/part_001 lines
83-86, equivalent to hid_len > MAX_HID_REPORT_SIZE = 30), then the buffer
[type:1][length:1][payload] (src/unnamed/part_001 lines 88-98). Returns
none on PayloadTooLarge. -/
def encode (ty : Nat) (payload : List Nat) : Option (List Nat) :=
  if payload.length + 2 > 32 then none
  else some ((ty % 256) :: (payload.length % 256) :: payload)

/-- Modelled from the spec: the Packet Codec decode direction is not in
src/ (it is implemented by the receiving dongle); per spec section 4.1,
decode(bytes) yields (type, payload) and fails with Malformed if fewer
than 2 bytes are available or the declared length exceeds the remaining
buffer. Returns none on Malformed. -/
def decode (bytes : List Nat) : Option (Nat × List Nat) :=
  match bytes with
  | ty :: len :: rest => if len ≤ rest.length then some (ty, rest.take len) else none
  | _ => none

/-- Bytes of the control line "ESB". -/
def ESB_LINE : List Nat := [69, 83, 66]

/-- Bytes of the control line "RST". -/
def RST_LINE : List Nat := [82, 83, 84]

/-- Bytes of the acknowledgment string "RST\n" written back on a reset
request (src/src/esb.c line 65). -/
def RST_ACK : List Nat := [82, 83, 84, 10]

/-- State of the UART RX path of src/src/esb.c: the esb_connected flag and
the accumulated bytes of the current line (rx_buffer[0..rx_pos), so
buf.length plays the role of rx_pos; capacity of rx_buffer is 32). -/
structure EsbState where
  esb_connected : Bool
  buf : List Nat
deriving DecidableEq, Repr

/-- Observable effects of processing received bytes: bytes written to the
UART, connection events raised, sleep durations (ms), whether sys_reboot
was invoked, and the rx_buffer indices stored to. -/
structure Effects where
  out : List Nat
  events : List Bool
  sleeps : List Nat
  rebooted : Bool
  stores : List Nat
deriving DecidableEq, Repr

/-- Empty effect trace. -/
def Effects.nil : Effects := ⟨[], [], [], false, []⟩

/-- Sequential composition of effect traces. -/
def Effects.seq (a b : Effects) : Effects :=
  ⟨a.out ++ b.out, a.events ++ b.events, a.sleeps ++ b.sleeps,
   a.rebooted || b.rebooted, a.stores ++ b.stores⟩

/-- C-string view of the accumulated line: strcmp reads rx_buffer up to
the first NUL byte (the parser writes a terminating NUL at rx_pos, and an
embedded 0 byte in the line truncates the comparison earlier). -/
def cstr (l : List Nat) : List Nat := l.takeWhile (fun b => b != 0)

/-- From src/src/esb.c lines 37-46: writes the string if the device is
ready, else silently writes nothing. -/
def uart_send_string (dev_ready : Bool) (s : List Nat) : List Nat :=
  if dev_ready then s else []

/-- One byte of the UART RX callback, src/src/esb.c (uart_rx_callback,
lines 49-78). On a newline (10) the line is NUL-terminated (a store at
index rx_pos) and compared with strcmp against "ESB" and "RST": "ESB"
updates the connection state to true, "RST" writes "RST\n" back, sleeps
50 ms and calls sys_reboot (which does not return, so rx_pos is not
reset); anything else is discarded; in all non-reboot cases rx_pos resets
to 0. A non-newline byte is appended while rx_pos < 31 (a store at index
rx_pos), otherwise dropped. -/
def uart_rx_step (dev_ready : Bool) (s : EsbState) (c : Nat) : EsbState × Effects :=
  if c = 10 then
    let line := cstr s.buf
    if line = ESB_LINE then
      let u := update_esb_connection_state s.esb_connected true
      (⟨u.1, []⟩, ⟨[], u.2, [], false, [s.buf.length]⟩)
    else if line = RST_LINE then
      (s, ⟨uart_send_string dev_ready RST_ACK, [], [50], true, [s.buf.length]⟩)
    else
      (⟨s.esb_connected, []⟩, ⟨[], [], [], false, [s.buf.length]⟩)
  else if s.buf.length < 31 then
    (⟨s.esb_connected, s.buf ++ [c]⟩, ⟨[], [], [], false, [s.buf.length]⟩)
  else
    (s, Effects.nil)

/-- The UART RX callback over a sequence of received bytes (the
uart_fifo_read loop of src/src/esb.c). sys_reboot does not return, so
processing stops at a reboot. -/
def uart_rx_process (dev_ready : Bool) (s : EsbState) (cs : List Nat) : EsbState × Effects :=
  match cs with
  | [] => (s, Effects.nil)
  | c :: rest =>
    let r := uart_rx_step dev_ready s c
    if r.2.rebooted then r
    else
      let r2 := uart_rx_process dev_ready r.1 rest
      (r2.1, r.2.seq r2.2)

/-- The three transports of the integrated endpoint system
(src/README.md, enum zmk_transport). -/
inductive Transport where
  | usb
  | ble
  | esb
deriving DecidableEq, Repr

/-- Transport selection, src/README.md lines 410-441
(get_selected_transport): USB first (deferring to the preference when a
wireless channel is also ready), then ESB before BLE, then the configured
DEFAULT_TRANSPORT. -/
def get_selected_transport (usb_ready ble_ready esb_ready : Bool)
    (preferred_transport default_transport : Transport) : Transport :=
  if usb_ready then
    if ble_ready || esb_ready then preferred_transport
    else Transport.usb
  else if esb_ready then Transport.esb
  else if ble_ready then Transport.ble
  else default_transport

/-! ## Helper lemmas about the UART RX path -/

/-- A list without NUL bytes is its own C-string view. -/
theorem cstr_of_no_nul : ∀ l : List Nat, (∀ b ∈ l, b ≠ 0) → cstr l = l := by
  intro l
  induction l with
  | nil => intro _; rfl
  | cons c rest ih =>
    intro h
    have hc : (c != 0) = true := by
      have := h c (List.mem_cons_self c rest)
      simpa using this
    have hr := ih fun b hb => h b (List.mem_cons_of_mem c hb)
    simp only [cstr] at hr ⊢
    simp [List.takeWhile_cons, hc, hr]

/-- Feeding newline-free bytes only accumulates (truncated at capacity 31):
it produces no output, no events, no sleeps and no reboot, and the
processing of any subsequent bytes proceeds from the accumulated buffer. -/
theorem uart_rx_no_newline_drop (dev_ready : Bool) (c0 : Bool) :
    ∀ l : List Nat, (∀ b ∈ l, b ≠ 10) → ∀ buf tail : List Nat,
    (uart_rx_process dev_ready ⟨c0, buf⟩ (l ++ tail)).1 =
      (uart_rx_process dev_ready ⟨c0, buf ++ l.take (31 - buf.length)⟩ tail).1 ∧
    (uart_rx_process dev_ready ⟨c0, buf⟩ (l ++ tail)).2.out =
      (uart_rx_process dev_ready ⟨c0, buf ++ l.take (31 - buf.length)⟩ tail).2.out ∧
    (uart_rx_process dev_ready ⟨c0, buf⟩ (l ++ tail)).2.events =
      (uart_rx_process dev_ready ⟨c0, buf ++ l.take (31 - buf.length)⟩ tail).2.events ∧
    (uart_rx_process dev_ready ⟨c0, buf⟩ (l ++ tail)).2.sleeps =
      (uart_rx_process dev_ready ⟨c0, buf ++ l.take (31 - buf.length)⟩ tail).2.sleeps ∧
    (uart_rx_process dev_ready ⟨c0, buf⟩ (l ++ tail)).2.rebooted =
      (uart_rx_process dev_ready ⟨c0, buf ++ l.take (31 - buf.length)⟩ tail).2.rebooted := by
  intro l
  induction l with
  | nil => intro _ buf tail; simp
  | cons c restl ih =>
    intro hl buf tail
    have hc : c ≠ 10 := hl c (List.mem_cons_self c restl)
    have hrest := fun b hb => hl b (List.mem_cons_of_mem c hb)
    by_cases hlen : buf.length < 31
    · have hstep : uart_rx_step dev_ready ⟨c0, buf⟩ c =
          (⟨c0, buf ++ [c]⟩, ⟨[], [], [], false, [buf.length]⟩) := by
        simp [uart_rx_step, hc, hlen]
      have hunfold : uart_rx_process dev_ready ⟨c0, buf⟩ (c :: (restl ++ tail)) =
          ((uart_rx_process dev_ready ⟨c0, buf ++ [c]⟩ (restl ++ tail)).1,
           (⟨[], [], [], false, [buf.length]⟩ : Effects).seq
             (uart_rx_process dev_ready ⟨c0, buf ++ [c]⟩ (restl ++ tail)).2) := by
        simp [uart_rx_process, hstep]
      obtain ⟨ih1, ih2, ih3, ih4, ih5⟩ := ih hrest (buf ++ [c]) tail
      have htake : buf ++ (c :: restl).take (31 - buf.length) =
          (buf ++ [c]) ++ restl.take (31 - (buf ++ [c]).length) := by
        have h31 : 31 - buf.length = (31 - (buf.length + 1)) + 1 := by omega
        simp [h31, List.take_succ_cons]
      rw [List.cons_append, hunfold]
      exact ⟨by simp [ih1, htake], by simp [Effects.seq, ih2, htake],
        by simp [Effects.seq, ih3, htake], by simp [Effects.seq, ih4, htake],
        by simp [Effects.seq, ih5, htake]⟩
    · have hstep : uart_rx_step dev_ready ⟨c0, buf⟩ c = (⟨c0, buf⟩, Effects.nil) := by
        simp [uart_rx_step, hc, hlen]
      have hunfold : uart_rx_process dev_ready ⟨c0, buf⟩ (c :: (restl ++ tail)) =
          ((uart_rx_process dev_ready ⟨c0, buf⟩ (restl ++ tail)).1,
           Effects.nil.seq (uart_rx_process dev_ready ⟨c0, buf⟩ (restl ++ tail)).2) := by
        simp [uart_rx_process, hstep, Effects.nil]
      obtain ⟨ih1, ih2, ih3, ih4, ih5⟩ := ih hrest buf tail
      have h0 : 31 - buf.length = 0 := by omega
      rw [List.cons_append, hunfold]
      simp only [h0, List.take_zero, List.append_nil] at ih1 ih2 ih3 ih4 ih5 ⊢
      exact ⟨ih1,
        by simp only [Effects.seq, Effects.nil, List.nil_append]; exact ih2,
        by simp only [Effects.seq, Effects.nil, List.nil_append]; exact ih3,
        by simp only [Effects.seq, Effects.nil, List.nil_append]; exact ih4,
        by simp only [Effects.seq, Effects.nil, Bool.false_or]; exact ih5⟩

/-- One step keeps the write position within bounds: from any state with
rx_pos at most 31, the new rx_pos is at most 31 and every buffer store of
the step is at an index strictly below 32. -/
theorem uart_rx_step_bounds (dev_ready : Bool) (s : EsbState) (c : Nat)
    (h : s.buf.length ≤ 31) :
    (uart_rx_step dev_ready s c).1.buf.length ≤ 31 ∧
    ((uart_rx_step dev_ready s c).2.stores.all fun i => decide (i < 32)) = true := by
  unfold uart_rx_step
  by_cases hc : c = 10
  · subst hc
    by_cases h1 : cstr s.buf = ESB_LINE
    · simp [h1]
      omega
    · by_cases h2 : cstr s.buf = RST_LINE
      · simp [h1, h2, ESB_LINE, RST_LINE]
        exact ⟨h, by omega⟩
      · simp [h1, h2]
        omega
  · by_cases hlen : s.buf.length < 31
    · simp [hc, hlen]
      omega
    · simp [hc, hlen, Effects.nil]
      exact h

/-- The invariant of uart_rx_step_bounds holds along any received byte
sequence. -/
theorem uart_rx_process_bounds (dev_ready : Bool) (cs : List Nat) : ∀ s : EsbState,
    s.buf.length ≤ 31 →
    (uart_rx_process dev_ready s cs).1.buf.length ≤ 31 ∧
    ((uart_rx_process dev_ready s cs).2.stores.all fun i => decide (i < 32)) = true := by
  induction cs with
  | nil => intro s h; simpa [uart_rx_process, Effects.nil] using h
  | cons c rest ih =>
    intro s h
    obtain ⟨h1, h2⟩ := uart_rx_step_bounds dev_ready s c h
    simp only [uart_rx_process]
    by_cases hr : (uart_rx_step dev_ready s c).2.rebooted
    · simp [hr, h1, h2]
    · obtain ⟨h3, h4⟩ := ih (uart_rx_step dev_ready s c).1 h1
      simp [hr, h3, Effects.seq, List.all_append, h2, h4]

/-! ## Theorems settling the claims -/

/-- C6: with wired (USB) not ready and both ESB and BLE ready — the
exclusivity precondition violated — the transport selection function
deterministically returns ESB, never BLE, for every preference and every
configured default. -/
theorem exclusivity_tiebreak (preferred_transport default_transport : Transport) :
    get_selected_transport false true true preferred_transport default_transport =
      Transport.esb := rfl

/-- C3: over every sequence of connection-state updates the raised events
are exactly one per distinct transition of the boolean (the
distinctTransitions subsequence); an update writing the value already held
raises no event, and an update changing the value raises exactly one event
carrying the new boolean. -/
theorem conn_events_once_per_transition :
    (∀ s us, (run_updates s us).2 = distinctTransitions s us) ∧
    (∀ c, (update_esb_connection_state c c).2 = []) ∧
    (∀ s c, s ≠ c → (update_esb_connection_state s c).2 = [c]) := by
  refine ⟨?_, ?_, ?_⟩
  · intro s us
    induction us generalizing s with
    | nil => rfl
    | cons c rest ih =>
      by_cases h : c = s
      · subst h
        simp [run_updates, update_esb_connection_state, distinctTransitions, ih]
      · have hb : (s != c) = true := by cases s <;> cases c <;> simp_all
        simp [run_updates, update_esb_connection_state, distinctTransitions, hb, h, ih]
  · intro c
    simp [update_esb_connection_state]
  · intro s c h
    have hb : (s != c) = true := by cases s <;> cases c <;> simp_all
    simp [update_esb_connection_state, hb]

/-- Witness for conn_events_once_per_transition at the concrete transition
false → true. -/
theorem conn_events_once_per_transition_witness :
    (update_esb_connection_state false true).2 = [true] :=
  conn_events_once_per_transition.2.2 false true (by decide)

/-- C10 (amendment of C1 is the first conjunct): zmk_esb_hid_send_report
checks the connection state first, then device readiness, then size: an
oversized payload submitted while disconnected yields -ENOTCONN (never
-EINVAL or -ENODEV) and no bytes, and while connected with the device not
ready yields -ENODEV. -/
theorem send_error_precedence (dev_ready : Bool) (ty : Nat) (report : List Nat)
    (_h : 30 < report.length) :
    zmk_esb_hid_send_report false dev_ready ty report = (-ENOTCONN, []) ∧
    zmk_esb_hid_send_report true false ty report = (-ENODEV, []) ∧
    ENOTCONN ≠ EINVAL ∧ ENOTCONN ≠ ENODEV :=
  ⟨rfl, rfl, by decide, by decide⟩

/-- Witness for send_error_precedence at a concrete 31-byte payload. -/
theorem send_error_precedence_witness :
    zmk_esb_hid_send_report false true 1 (List.replicate 31 0) = (-ENOTCONN, []) ∧
    zmk_esb_hid_send_report true false 1 (List.replicate 31 0) = (-ENODEV, []) ∧
    ENOTCONN ≠ EINVAL ∧ ENOTCONN ≠ ENODEV :=
  send_error_precedence true 1 (List.replicate 31 0) (by decide)

/-- C1 counterexample: in the earlier variant (src/unnamed/part_001), a
send while the connection state is Disconnected but the transport ready
succeeds (returns 0, not -ENOTCONN), writes the 10-byte packet to the
link, and flips the connection state to Connected: the claim fails on
zmk_esb_hid_send_packet, which it cites. -/
theorem send_while_disconnected_cex :
    (Part001.zmk_esb_hid_send_packet ⟨true, false⟩ 1 [0, 0, 0, 0, 0, 0, 0, 0]).ret = 0 ∧
    (Part001.zmk_esb_hid_send_packet ⟨true, false⟩ 1 [0, 0, 0, 0, 0, 0, 0, 0]).out =
      [1, 8, 0, 0, 0, 0, 0, 0, 0, 0] ∧
    (Part001.zmk_esb_hid_send_packet ⟨true, false⟩ 1
      [0, 0, 0, 0, 0, 0, 0, 0]).state.esb_connection_active = true := by
  decide

/-- C1 amended: in the current variant (src/src/esb_hid.c), for every
report type and payload, a send while the connection state is Disconnected
fails with -ENOTCONN and writes no bytes to the link. -/
theorem send_while_disconnected (dev_ready : Bool) (ty : Nat) (report : List Nat) :
    zmk_esb_hid_send_report false dev_ready ty report = (-ENOTCONN, []) := rfl

/-- C2: divergence of the size check. zmk_esb_hid_send_report
(src/src/esb_hid.c) validates total length against its 64-byte local
buffer, so a 31-byte payload (length + 2 = 33 > 32) is accepted and 33
bytes are written to the link, and only length + 2 > 64 fails with
-EINVAL; the earlier variant zmk_esb_hid_send_packet and the codec reject
the same payload with PayloadTooLarge writing nothing, as the claim
requires. -/
theorem size_check_divergence :
    zmk_esb_hid_send_report true true 3 (List.replicate 31 0) =
      (0, 3 :: 31 :: List.replicate 31 0) ∧
    (Part001.zmk_esb_hid_send_packet ⟨true, true⟩ 3 (List.replicate 31 0)).ret = -EINVAL ∧
    (Part001.zmk_esb_hid_send_packet ⟨true, true⟩ 3 (List.replicate 31 0)).out = [] ∧
    encode 3 (List.replicate 31 0) = none ∧
    zmk_esb_hid_send_report true true 3 (List.replicate 63 0) = (-EINVAL, []) ∧
    zmk_esb_hid_send_report true true 3 (List.replicate 62 0) =
      (0, 3 :: 62 :: List.replicate 62 0) := by
  decide

/-- C7: for every report type in {1, 2, 3} and every payload of length at
most 30, a successful send emits exactly [type][length][payload] — a total
of length + 2 bytes with nothing interposed — as one buffer, in both the
current sender and the earlier variant. -/
theorem send_wire_format (ty : Nat) (report : List Nat) (ca : Bool)
    (hty : ty = 1 ∨ ty = 2 ∨ ty = 3) (hlen : report.length ≤ 30) :
    zmk_esb_hid_send_report true true ty report = (0, ty :: report.length :: report) ∧
    (Part001.zmk_esb_hid_send_packet ⟨true, ca⟩ ty report).ret = 0 ∧
    (Part001.zmk_esb_hid_send_packet ⟨true, ca⟩ ty report).out =
      ty :: report.length :: report ∧
    (ty :: report.length :: report).length = report.length + 2 := by
  have hty' : ty % 256 = ty := by rcases hty with h | h | h <;> subst h <;> rfl
  have hlen' : report.length % 256 = report.length := Nat.mod_eq_of_lt (by omega)
  have hsz : ¬ (report.length + 2 > 64) := by omega
  have hmx : ¬ (report.length > Part001.MAX_HID_REPORT_SIZE) := by
    have : Part001.MAX_HID_REPORT_SIZE = 30 := rfl
    omega
  refine ⟨?_, ?_, ?_, by simp⟩
  · simp [zmk_esb_hid_send_report, hsz, hty', hlen']
  · cases ca <;>
      simp [Part001.zmk_esb_hid_send_packet, Part001.zmk_esb_hid_is_ready,
        Part001.is_blesb_connected, Part001.is_blesb_in_esb_mode, hmx,
        update_esb_connection_state]
  · cases ca <;>
      simp [Part001.zmk_esb_hid_send_packet, Part001.zmk_esb_hid_is_ready,
        Part001.is_blesb_connected, Part001.is_blesb_in_esb_mode, hmx,
        update_esb_connection_state, hty', hlen']

/-- Witness for send_wire_format: a keyboard report of 8 zero bytes is
framed as [1][8][8 zero bytes]. -/
theorem send_wire_format_witness :
    zmk_esb_hid_send_report true true 1 (List.replicate 8 0) =
      (0, 1 :: 8 :: List.replicate 8 0) ∧
    (Part001.zmk_esb_hid_send_packet ⟨true, false⟩ 1 (List.replicate 8 0)).ret = 0 ∧
    (Part001.zmk_esb_hid_send_packet ⟨true, false⟩ 1 (List.replicate 8 0)).out =
      1 :: 8 :: List.replicate 8 0 ∧
    (1 :: 8 :: List.replicate 8 0 : List Nat).length = 8 + 2 :=
  send_wire_format 1 (List.replicate 8 0) false (Or.inl rfl) (by decide)

/-- C8: decode inverts encode — for every type below 256 and payload of
length at most 30, encode succeeds and decoding its output returns exactly
the type and payload — and decode fails (Malformed) exactly when fewer
than 2 bytes are available or the declared length exceeds the remaining
buffer. -/
theorem decode_encode (ty : Nat) (payload : List Nat)
    (hty : ty < 256) (hlen : payload.length ≤ 30) :
    (encode ty payload).bind decode = some (ty, payload) ∧
    (∀ bs : List Nat, decode bs = none ↔
      bs.length < 2 ∨ ∃ t l rest, bs = t :: l :: rest ∧ rest.length < l) := by
  constructor
  · have h1 : ¬ (payload.length + 2 > 32) := by omega
    have hty' : ty % 256 = ty := Nat.mod_eq_of_lt hty
    have hlen' : payload.length % 256 = payload.length := Nat.mod_eq_of_lt (by omega)
    simp [encode, h1, hty', hlen', decode]
  · intro bs
    match bs with
    | [] => simp [decode]
    | [t] => simp [decode]
    | t :: l :: rest =>
      by_cases h : l ≤ rest.length
      · simp only [decode, if_pos h]
        constructor
        · intro hc; exact (Option.some_ne_none _ hc).elim
        · rintro (h2 | ⟨t', l', r', heq, hlt⟩)
          · rw [List.length_cons, List.length_cons] at h2
            exact absurd h2 (by omega)
          · cases heq
            exact absurd hlt (not_lt.mpr h)
      · simp only [decode, if_neg h]
        exact iff_of_true trivial (Or.inr ⟨t, l, rest, rfl, not_le.mp h⟩)

/-- Witness for decode_encode at type 2 with the one-byte payload [7]. -/
theorem decode_encode_witness :
    (encode 2 [7]).bind decode = some (2, [7]) ∧
    (∀ bs : List Nat, decode bs = none ↔
      bs.length < 2 ∨ ∃ t l rest, bs = t :: l :: rest ∧ rest.length < l) :=
  decode_encode 2 [7] (by decide) (by decide)

/-- C4: completing a control line equal to "ESB" transitions the
connection state machine to Connected (writing nothing to the link and
not restarting); completing a line equal to "RST" writes the literal
bytes "RST\n" back over the link, sleeps the bounded 50 ms grace
interval, and invokes the system restart, after which no further received
bytes are processed (the restart is terminal). -/
theorem control_line_dispatch (dev_ready : Bool) (s : EsbState) :
    (cstr s.buf = ESB_LINE →
      (uart_rx_step dev_ready s 10).1.esb_connected = true ∧
      (uart_rx_step dev_ready s 10).2.out = [] ∧
      (uart_rx_step dev_ready s 10).2.rebooted = false) ∧
    (cstr s.buf = RST_LINE →
      (uart_rx_step true s 10).2.out = RST_ACK ∧
      (uart_rx_step true s 10).2.sleeps = [50] ∧
      (uart_rx_step true s 10).2.rebooted = true ∧
      ∀ rest, uart_rx_process true s (10 :: rest) = uart_rx_step true s 10) := by
  constructor
  · intro h1
    cases hsc : s.esb_connected <;>
      simp [uart_rx_step, h1, update_esb_connection_state, hsc]
  · intro h2
    have hne : cstr s.buf ≠ ESB_LINE := by rw [h2]; decide
    have hstep : uart_rx_step true s 10 =
        (s, ⟨RST_ACK, [], [50], true, [s.buf.length]⟩) := by
      simp [uart_rx_step, hne, h2, uart_send_string,
        show ¬ RST_LINE = ESB_LINE from by decide]
    refine ⟨by rw [hstep], by rw [hstep], by rw [hstep], ?_⟩
    intro rest
    simp [uart_rx_process, hstep]

/-- Witness for control_line_dispatch at the completed lines "ESB" and
"RST". -/
theorem control_line_dispatch_witness :
    ((uart_rx_step true ⟨false, [69, 83, 66]⟩ 10).1.esb_connected = true ∧
     (uart_rx_step true ⟨false, [69, 83, 66]⟩ 10).2.out = [] ∧
     (uart_rx_step true ⟨false, [69, 83, 66]⟩ 10).2.rebooted = false) ∧
    ((uart_rx_step true ⟨false, [82, 83, 84]⟩ 10).2.out = RST_ACK ∧
     (uart_rx_step true ⟨false, [82, 83, 84]⟩ 10).2.sleeps = [50] ∧
     (uart_rx_step true ⟨false, [82, 83, 84]⟩ 10).2.rebooted = true ∧
     ∀ rest, uart_rx_process true ⟨false, [82, 83, 84]⟩ (10 :: rest) =
       uart_rx_step true ⟨false, [82, 83, 84]⟩ 10) :=
  ⟨(control_line_dispatch true ⟨false, [69, 83, 66]⟩).1 (by decide),
   (control_line_dispatch true ⟨false, [82, 83, 84]⟩).2 (by decide)⟩

/-- C5 counterexample: the single 33-byte line "ESB", NUL, then 29 letter
bytes overflows the 32-byte buffer before its newline, yet on the
terminating newline the truncated buffer compares equal to "ESB" under C
string semantics (strcmp stops at the embedded NUL): the over-long
partial line IS processed as a control message — the connection state
machine transitions to Connected and publishes an event. -/
theorem overflow_line_cex :
    (uart_rx_process true ⟨false, []⟩
      ([69, 83, 66, 0] ++ List.replicate 29 65 ++ [10])).1.esb_connected = true ∧
    (uart_rx_process true ⟨false, []⟩
      ([69, 83, 66, 0] ++ List.replicate 29 65 ++ [10])).2.events = [true] := by
  decide

/-- C5 amended: for every line longer than the buffer can hold (more than
31 bytes before the terminating newline) that contains no NUL byte, the
parser drops the partial line without processing it as a control message:
the resulting state and the observable behaviour (link output, events,
sleeps, restart) of the whole stream equal those of the stream without
the over-long line, so the next newline-terminated line parses
correctly. -/
theorem overflow_line_dropped (dev_ready : Bool) (c0 : Bool) (l rest : List Nat)
    (hln : ∀ b ∈ l, b ≠ 10 ∧ b ≠ 0) (hlong : 31 < l.length) :
    (uart_rx_process dev_ready ⟨c0, []⟩ (l ++ 10 :: rest)).1 =
      (uart_rx_process dev_ready ⟨c0, []⟩ rest).1 ∧
    (uart_rx_process dev_ready ⟨c0, []⟩ (l ++ 10 :: rest)).2.out =
      (uart_rx_process dev_ready ⟨c0, []⟩ rest).2.out ∧
    (uart_rx_process dev_ready ⟨c0, []⟩ (l ++ 10 :: rest)).2.events =
      (uart_rx_process dev_ready ⟨c0, []⟩ rest).2.events ∧
    (uart_rx_process dev_ready ⟨c0, []⟩ (l ++ 10 :: rest)).2.sleeps =
      (uart_rx_process dev_ready ⟨c0, []⟩ rest).2.sleeps ∧
    (uart_rx_process dev_ready ⟨c0, []⟩ (l ++ 10 :: rest)).2.rebooted =
      (uart_rx_process dev_ready ⟨c0, []⟩ rest).2.rebooted := by
  have hno10 : ∀ b ∈ l, b ≠ 10 := fun b hb => (hln b hb).1
  obtain ⟨d1, d2, d3, d4, d5⟩ :=
    uart_rx_no_newline_drop dev_ready c0 l hno10 [] (10 :: rest)
  simp only [List.nil_append, List.length_nil, Nat.sub_zero] at d1 d2 d3 d4 d5
  have hcstr : cstr (l.take 31) = l.take 31 :=
    cstr_of_no_nul _ (fun b hb => (hln b (List.take_subset _ _ hb)).2)
  have hlen31 : (l.take 31).length = 31 := by
    rw [List.length_take]
    omega
  have hne1 : cstr (l.take 31) ≠ ESB_LINE := by
    rw [hcstr]
    intro hEq
    have hlg := congrArg List.length hEq
    rw [hlen31] at hlg
    simp [ESB_LINE] at hlg
  have hne2 : cstr (l.take 31) ≠ RST_LINE := by
    rw [hcstr]
    intro hEq
    have hlg := congrArg List.length hEq
    rw [hlen31] at hlg
    simp [RST_LINE] at hlg
  have hstep : uart_rx_step dev_ready ⟨c0, l.take 31⟩ 10 =
      (⟨c0, []⟩, ⟨[], [], [], false, [(l.take 31).length]⟩) := by
    simp [uart_rx_step, hne1, hne2]
  have hunfold : uart_rx_process dev_ready ⟨c0, l.take 31⟩ (10 :: rest) =
      ((uart_rx_process dev_ready ⟨c0, []⟩ rest).1,
       (⟨[], [], [], false, [(l.take 31).length]⟩ : Effects).seq
         (uart_rx_process dev_ready ⟨c0, []⟩ rest).2) := by
    simp [uart_rx_process, hstep]
  rw [hunfold] at d1 d2 d3 d4 d5
  simp only [Effects.seq, List.nil_append, Bool.false_or] at d2 d3 d4 d5
  exact ⟨d1, d2, d3, d4, d5⟩

/-- Witness for overflow_line_dropped: a 32-byte line of letter bytes is
dropped and the stream behaves as if only the following "ESB" line had
been received. -/
theorem overflow_line_dropped_witness :
    (uart_rx_process true ⟨false, []⟩
      (List.replicate 32 65 ++ 10 :: [69, 83, 66, 10])).1 =
      (uart_rx_process true ⟨false, []⟩ [69, 83, 66, 10]).1 ∧
    (uart_rx_process true ⟨false, []⟩
      (List.replicate 32 65 ++ 10 :: [69, 83, 66, 10])).2.out =
      (uart_rx_process true ⟨false, []⟩ [69, 83, 66, 10]).2.out ∧
    (uart_rx_process true ⟨false, []⟩
      (List.replicate 32 65 ++ 10 :: [69, 83, 66, 10])).2.events =
      (uart_rx_process true ⟨false, []⟩ [69, 83, 66, 10]).2.events ∧
    (uart_rx_process true ⟨false, []⟩
      (List.replicate 32 65 ++ 10 :: [69, 83, 66, 10])).2.sleeps =
      (uart_rx_process true ⟨false, []⟩ [69, 83, 66, 10]).2.sleeps ∧
    (uart_rx_process true ⟨false, []⟩
      (List.replicate 32 65 ++ 10 :: [69, 83, 66, 10])).2.rebooted =
      (uart_rx_process true ⟨false, []⟩ [69, 83, 66, 10]).2.rebooted :=
  overflow_line_dropped true false (List.replicate 32 65) [69, 83, 66, 10]
    (by decide) (by decide)

/-- C9: for every device readiness and every sequence of received bytes
from the initial state, the parser's write position stays at most 31 and
every store into the 32-byte line buffer (including the terminating NUL
written on a newline) is at an index strictly below 32: the parser never
writes outside its buffer. -/
theorem parser_no_overrun (dev_ready : Bool) (cs : List Nat) :
    (uart_rx_process dev_ready ⟨false, []⟩ cs).1.buf.length ≤ 31 ∧
    ((uart_rx_process dev_ready ⟨false, []⟩ cs).2.stores.all fun i =>
      decide (i < 32)) = true :=
  uart_rx_process_bounds dev_ready cs ⟨false, []⟩ (by simp)

end EsbTransport
